import Mathlib

/-!
Verification of the conversation-orchestration core of the claude-think-tool
repository (internal/usecase/thinkservice.go), shallowly embedded in Lean.

Decoded JSON payloads (the result of json.Unmarshal into interface maps) are
modelled by the `Json` inductive. The injected API client is modelled as a
function from the call index (0 for the initial request, 1 for the follow-up)
to either a transport-error string or a decoded response payload; the
orchestrator `AnalyzeThought` returns, besides its result, the ordered list of
requests it sent, so that round-trip counts and request contents can be
stated.
-/

set_option autoImplicit false

namespace ThinkTool

/-- Decoded JSON values, as produced by json.Unmarshal into interface maps. -/
inductive Json where
  | str : String → Json
  | num : Int → Json
  | bool : Bool → Json
  | null : Json
  | arr : List Json → Json
  | obj : List (String × Json) → Json

/-- Lookup of a key in a decoded JSON object field list (Go map indexing). -/
def lookupField : List (String × Json) → String → Option Json
  | [], _ => none
  | (k, v) :: rest, key => if k = key then some v else lookupField rest key

/-- Indexing a decoded value as a map: m[key] when m is an object, else nil. -/
def Json.get (j : Json) (key : String) : Option Json :=
  match j with
  | Json.obj fields => lookupField fields key
  | _ => none

/-- Go type assertion m[key].(string): some s iff the key holds a string. -/
def Json.getStr (j : Json) (key : String) : Option String :=
  match j.get key with
  | some (Json.str s) => some s
  | _ => none

/-- Mirror of domain.Config (internal/domain/entities.go). -/
structure Config where
  APIKey : String
  Model : String
  Timeout : Int
  MaxTokens : Int
  OutputFormat : String
  Verbose : Bool
  Interactive : Bool
  ThoughtPrompt : String

/-- Mirror of domain.ThinkResponse: the raw decoded payload plus the
extracted text content. -/
structure ThinkResponse where
  Raw : Json
  Content : String

/-- One message of a request payload: a role and a content value (a plain
string for user prompts, an array of blocks otherwise). -/
structure Message where
  role : String
  content : Json

/-- Request payload built by AnalyzeThought: model, max_tokens, messages and
(for the initial request only) the advertised tools. -/
structure Request where
  model : String
  max_tokens : Int
  messages : List Message
  tools : Option (List Json)

/-- Errors produced by AnalyzeThought, one constructor per distinct
fmt.Errorf site in the Go code reachable in this embedding. -/
inductive ThinkError where
  | apiKeyMissing
  | initialRequestFailed (cause : String)
  | contentMissing
  | noValidToolUse
  | followUpRequestFailed (cause : String)
  | extractContentFailed
deriving DecidableEq

/-- Error text of each error, as formatted by fmt.Errorf in the Go code. -/
def ThinkError.message : ThinkError → String
  | .apiKeyMissing =>
      "API key not found. Set it using the -apikey flag or ANTHROPIC_API_KEY environment variable"
  | .initialRequestFailed cause => "initial request failed: " ++ cause
  | .contentMissing => "content field missing or invalid"
  | .noValidToolUse => "couldn\x27t find valid tool use block"
  | .followUpRequestFailed cause => "follow-up request failed: " ++ cause
  | .extractContentFailed => "couldn\x27t extract content from response"

/-- Classification of the errors that the design document calls protocol
errors: a decoded payload missing expected fields or lacking a valid
tool-use block. -/
def ThinkError.isProtocolError : ThinkError → Bool
  | .contentMissing => true
  | .noValidToolUse => true
  | .extractContentFailed => true
  | _ => false

/-- Mirror of createThinkTool after its marshal/unmarshal round-trip into a
map: the fixed tool schema with the json tags of domain.Tool. -/
def createThinkTool : Json :=
  Json.obj
    [("type", Json.str "custom"),
     ("name", Json.str "think"),
     ("description", Json.str "A tool to analyze and verify thinking processes"),
     ("input_schema", Json.obj
       [("type", Json.str "object"),
        ("properties", Json.obj
          [("thought", Json.obj
            [("type", Json.str "string"),
             ("description", Json.str "The thought content to be analyzed and verified")])]),
        ("required", Json.arr [Json.str "thought"])])]

/-- Text of a content block if it is a text block with a string text field,
as tested by the loop in formatThinkResponse. -/
def textOf (item : Json) : Option String :=
  if item.getStr "type" = some "text" then item.getStr "text" else none

/-- Mirror of the extraction loop of formatThinkResponse: concatenate the
text of every text block, each followed by a newline, in order. -/
def extractText : List Json → String
  | [] => ""
  | item :: rest =>
    match textOf item with
    | some t => t ++ "\n" ++ extractText rest
    | none => extractText rest

/-- Mirror of formatThinkResponse: require the content field to be an array,
then pair the raw payload with the extracted text. -/
def formatThinkResponse (responseMap : Json) : Except ThinkError ThinkResponse :=
  match responseMap.get "content" with
  | some (Json.arr content) => Except.ok ⟨responseMap, extractText content⟩
  | _ => Except.error ThinkError.extractContentFailed

/-- Whether a content block carries the tool_use discriminator, as tested by
the scan loop of AnalyzeThought. -/
def isToolUseBlock (item : Json) : Bool :=
  item.getStr "type" = some "tool_use"

/-- Mirror of the scan loop of AnalyzeThought over the content array: stop at
the first block typed tool_use and take its id and name fields via Go string
assertions (empty string when absent or not a string); yield a pair of empty
strings when no block matches. -/
def findToolUse : List Json → String × String
  | [] => ("", "")
  | item :: rest =>
    if isToolUseBlock item then
      ((item.getStr "id").getD "", (item.getStr "name").getD "")
    else findToolUse rest

/-- Fixed analysis text used when the thought is exactly "Japan is cool". -/
def japanAnalysis : String :=
  "I\x27ve analyzed the thought \"Japan is cool\":\n\nStrengths:\n- Simple and clear statement of opinion\n- Easy to understand sentiment \n- Broadly relatable to many audiences\n\nConcerns:\n- Very general statement lacking specific details\n- No supporting evidence or reasoning provided\n- Could be perceived as overly simplistic\n\nRecommendation:\n- Consider adding specific aspects of Japan that are \"cool\"\n- Provide personal experiences or facts that support this opinion\n- Consider cultural context and avoid generalizations"

/-- Fixed default analysis text used for every other thought. -/
def defaultAnalysis : String :=
  "I\x27ve analyzed the thought. Here are my observations:\n\nStrengths:\n- Clear statement of opinion\n- Easy to understand the main point\n\nConcerns:\n- Limited supporting details or evidence\n- Could benefit from more specific examples\n\nRecommendation:\n- Add specific supporting details\n- Consider different perspectives\n- Clarify reasoning behind the thought"

/-- Synthetic tool result built by AnalyzeThought from the thought alone. -/
def computeToolResult (thought : String) : String :=
  if thought = "Japan is cool" then japanAnalysis else defaultAnalysis

/-- Mirror of the prompt preparation of AnalyzeThought. -/
def composeUserPrompt (thoughtPrompt thought : String) : String :=
  if thoughtPrompt ≠ "" then thoughtPrompt ++ " " ++ thought
  else "Please analyze the following thought: " ++ thought

/-- API key resolution: the config key, or the ANTHROPIC_API_KEY environment
value when the config key is empty. -/
def resolveAPIKey (configKey env : String) : String :=
  if configKey = "" then env else configKey

/-- Initial request payload built by AnalyzeThought. -/
def initialRequest (config : Config) (thought : String) : Request :=
  { model := config.Model
    max_tokens := config.MaxTokens
    messages := [⟨"user", Json.str (composeUserPrompt config.ThoughtPrompt thought)⟩]
    tools := some [createThinkTool] }

/-- Tool-result message of the follow-up request. -/
def toolResultMessage (toolUseID toolResult : String) : Message :=
  ⟨"user", Json.arr
    [Json.obj
      [("type", Json.str "tool_result"),
       ("tool_use_id", Json.str toolUseID),
       ("content", Json.str toolResult)]]⟩

/-- Follow-up request payload built by AnalyzeThought: original user message,
assistant message carrying the raw first-response content, and the
tool-result message. -/
def followUpRequest (config : Config) (thought : String) (content : List Json)
    (toolUseID : String) : Request :=
  { model := config.Model
    max_tokens := config.MaxTokens
    messages :=
      [⟨"user", Json.str (composeUserPrompt config.ThoughtPrompt thought)⟩,
       ⟨"assistant", Json.arr content⟩,
       toolResultMessage toolUseID (computeToolResult thought)]
    tools := none }

/-- Mirror of ThinkService.AnalyzeThought. The client maps the index of a
call (0 = initial, 1 = follow-up) to a transport error or a decoded response
payload; the second component of the result is the ordered list of requests
sent. -/
def AnalyzeThought (env : String) (client : Nat → Except String Json)
    (thought : String) (config : Config) :
    Except ThinkError ThinkResponse × List Request :=
  if resolveAPIKey config.APIKey env = "" then
    (Except.error ThinkError.apiKeyMissing, [])
  else
    match client 0 with
    | Except.error e =>
        (Except.error (ThinkError.initialRequestFailed e), [initialRequest config thought])
    | Except.ok initialResponseMap =>
      if initialResponseMap.getStr "stop_reason" = some "tool_use" then
        match initialResponseMap.get "content" with
        | some (Json.arr content) =>
          if (findToolUse content).1 = "" ∨ (findToolUse content).2 = "" then
            (Except.error ThinkError.noValidToolUse, [initialRequest config thought])
          else
            match client 1 with
            | Except.error e =>
                (Except.error (ThinkError.followUpRequestFailed e),
                 [initialRequest config thought,
                  followUpRequest config thought content (findToolUse content).1])
            | Except.ok finalResponseMap =>
                (formatThinkResponse finalResponseMap,
                 [initialRequest config thought,
                  followUpRequest config thought content (findToolUse content).1])
        | _ => (Except.error ThinkError.contentMissing, [initialRequest config thought])
      else
        (formatThinkResponse initialResponseMap, [initialRequest config thought])

/-! Concrete payloads and clients used to evaluate the theorems on explicit
inputs. -/

/-- Sample configuration with a non-empty API key and no prompt template. -/
def cfg0 : Config :=
  ⟨"test-key", "test-model", 30000000000, 1024, "text", false, false, ""⟩

/-- Sample configuration with an empty API key. -/
def cfgNoKey : Config :=
  ⟨"", "test-model", 30000000000, 1024, "text", false, false, ""⟩

/-- Well-formed tool-use content block. -/
def toolUseBlock : Json :=
  Json.obj [("type", Json.str "tool_use"),
            ("id", Json.str "tu_1"),
            ("name", Json.str "think")]

/-- Well-formed first response requesting tool use. -/
def toolUseResp : Json :=
  Json.obj
    [("stop_reason", Json.str "tool_use"),
     ("content", Json.arr [toolUseBlock])]

/-- Well-formed final response with a single text block. -/
def endTurnResp : Json :=
  Json.obj
    [("stop_reason", Json.str "end_turn"),
     ("content", Json.arr
       [Json.obj [("type", Json.str "text"), ("text", Json.str "done")]])]

/-- Client answering the initial request with a tool-use response and the
follow-up with a final text response. -/
def happyClient : Nat → Except String Json :=
  fun n => if n = 0 then Except.ok toolUseResp else Except.ok endTurnResp

/-- Response claiming tool use whose only tool_use-typed block has no id and
no name. -/
def malformedToolUseResp : Json :=
  Json.obj
    [("stop_reason", Json.str "tool_use"),
     ("content", Json.arr [Json.obj [("type", Json.str "tool_use")]])]

/-- Client always answering with the malformed tool-use response. -/
def malformedToolUseClient : Nat → Except String Json :=
  fun _ => Except.ok malformedToolUseResp

/-- Response claiming tool use whose first tool_use-typed block has no id,
followed by a well-formed tool-use block. -/
def firstInvalidToolUseResp : Json :=
  Json.obj
    [("stop_reason", Json.str "tool_use"),
     ("content", Json.arr
       [Json.obj [("type", Json.str "tool_use")],
        Json.obj [("type", Json.str "tool_use"),
                  ("id", Json.str "tu_2"),
                  ("name", Json.str "think")]])]

/-- Client always answering with the first-invalid tool-use response. -/
def firstInvalidToolUseClient : Nat → Except String Json :=
  fun _ => Except.ok firstInvalidToolUseResp

/-- Response claiming tool use whose content holds no tool_use-typed block. -/
def noToolUseBlockResp : Json :=
  Json.obj
    [("stop_reason", Json.str "tool_use"),
     ("content", Json.arr
       [Json.obj [("type", Json.str "text"), ("text", Json.str "hi")]])]

/-- Client always answering with the tool-use response lacking tool blocks. -/
def noToolUseBlockClient : Nat → Except String Json :=
  fun _ => Except.ok noToolUseBlockResp

/-- Response with stop_reason end_turn and no content field. -/
def noContentResp : Json :=
  Json.obj [("stop_reason", Json.str "end_turn")]

/-- Client always answering with the response lacking a content field. -/
def noContentClient : Nat → Except String Json :=
  fun _ => Except.ok noContentResp

/-- Response with no stop_reason field and a single text block. -/
def noStopReasonResp : Json :=
  Json.obj
    [("content", Json.arr
      [Json.obj [("type", Json.str "text"), ("text", Json.str "hi")]])]

/-- Client always answering with the response lacking a stop_reason. -/
def noStopReasonClient : Nat → Except String Json :=
  fun _ => Except.ok noStopReasonResp

/-- Client whose every call fails with a transport error. -/
def failingClient : Nat → Except String Json :=
  fun _ => Except.error "connection refused"

/-- Client answering the initial request with a plain text response. -/
def endTurnClient : Nat → Except String Json :=
  fun _ => Except.ok endTurnResp

/-! Spec-side description of the text extraction, for the refinement claim
about ExtractText. -/

/-- Modelled from the spec: the texts of the TextBlocks of a content
sequence, in document order; a TextBlock is a block whose discriminator is
"text" and whose text field is a string. -/
def specTextBlocks (content : List Json) : List String :=
  content.filterMap (fun item =>
    if item.getStr "type" = some "text" then item.getStr "text" else none)

/-- Modelled from the spec: ExtractText concatenates every TextBlock text,
each followed by a newline, preserving order; non-text blocks are skipped. -/
def specExtractText (content : List Json) : String :=
  String.join ((specTextBlocks content).map (fun t => t ++ "\n"))

/-! Helper lemmas. -/

lemma string_foldl_append (l : List String) (s : String) :
    l.foldl (fun r t => r ++ t) s = s ++ l.foldl (fun r t => r ++ t) "" := by
  induction l generalizing s with
  | nil => simp [List.foldl]
  | cons a l ih =>
    simp only [List.foldl]
    rw [ih (s ++ a), ih ("" ++ a)]
    have hnil : ("" : String) ++ a = a := rfl
    rw [hnil, String.append_assoc]

lemma string_join_cons (a : String) (l : List String) :
    String.join (a :: l) = a ++ String.join l := by
  show (a :: l).foldl (fun r t => r ++ t) "" = a ++ l.foldl (fun r t => r ++ t) ""
  simp only [List.foldl]
  rw [string_foldl_append]
  have hnil : ("" : String) ++ a = a := rfl
  rw [hnil]

/-- Correspondence of the extraction loop of formatThinkResponse with the
spec description of ExtractText. -/
lemma extractText_eq_spec (content : List Json) :
    extractText content = specExtractText content := by
  induction content with
  | nil => rfl
  | cons item rest ih =>
    rcases ht : textOf item with _ | t
    · have hb : (if item.getStr "type" = some "text" then item.getStr "text" else none) = none := ht
      simp only [extractText, ht, specExtractText, specTextBlocks, List.filterMap_cons, hb]
      exact ih
    · have hb : (if item.getStr "type" = some "text" then item.getStr "text" else none) = some t := ht
      simp only [extractText, ht, specExtractText, specTextBlocks, List.filterMap_cons, hb,
        List.map_cons, string_join_cons]
      rw [ih]
      rfl

/-- Scan result when no block of the content carries the tool_use
discriminator. -/
lemma findToolUse_of_no_tool_use (blocks : List Json)
    (h : ∀ b ∈ blocks, isToolUseBlock b = false) :
    findToolUse blocks = ("", "") := by
  induction blocks with
  | nil => rfl
  | cons item rest ih =>
    have hitem : isToolUseBlock item = false := h item (List.mem_cons_self item rest)
    simp only [findToolUse, hitem, Bool.false_eq_true, if_false]
    exact ih (fun b hb => h b (List.mem_cons_of_mem item hb))

/-- Scan result at the first block carrying the tool_use discriminator: the
id and name of that block, later blocks ignored. -/
lemma findToolUse_append (pre : List Json) (b : Json) (rest : List Json)
    (hpre : ∀ x ∈ pre, isToolUseBlock x = false)
    (hb : isToolUseBlock b = true) :
    findToolUse (pre ++ b :: rest) =
      ((b.getStr "id").getD "", (b.getStr "name").getD "") := by
  induction pre with
  | nil => simp only [List.nil_append, findToolUse, hb, if_true]
  | cons x pre ih =>
    have hx : isToolUseBlock x = false := hpre x (List.mem_cons_self x pre)
    simp only [List.cons_append, findToolUse, hx, Bool.false_eq_true, if_false]
    exact ih (fun y hy => hpre y (List.mem_cons_of_mem x hy))

/-- Failure of formatThinkResponse when the content field is not an array. -/
lemma formatThinkResponse_not_arr (responseMap : Json)
    (h : ∀ blocks, responseMap.get "content" ≠ some (Json.arr blocks)) :
    formatThinkResponse responseMap = Except.error ThinkError.extractContentFailed := by
  unfold formatThinkResponse
  split
  · rename_i blocks heq
    exact absurd heq (h blocks)
  · rfl

/-- Branch computation: transport failure of the initial request. -/
lemma AnalyzeThought_initial_error (env : String) (client : Nat → Except String Json)
    (thought : String) (config : Config) (e : String)
    (hkey : resolveAPIKey config.APIKey env ≠ "")
    (h0 : client 0 = Except.error e) :
    AnalyzeThought env client thought config =
      (Except.error (ThinkError.initialRequestFailed e), [initialRequest config thought]) := by
  unfold AnalyzeThought
  rw [if_neg hkey, h0]

/-- Branch computation: first response not asking for tool use. -/
lemma AnalyzeThought_not_tool_use (env : String) (client : Nat → Except String Json)
    (thought : String) (config : Config) (resp : Json)
    (hkey : resolveAPIKey config.APIKey env ≠ "")
    (h0 : client 0 = Except.ok resp)
    (hsr : ¬ resp.getStr "stop_reason" = some "tool_use") :
    AnalyzeThought env client thought config =
      (formatThinkResponse resp, [initialRequest config thought]) := by
  unfold AnalyzeThought
  rw [if_neg hkey, h0]
  dsimp only
  rw [if_neg hsr]

/-- Branch computation: tool use claimed but the content field is not an
array. -/
lemma AnalyzeThought_content_missing (env : String) (client : Nat → Except String Json)
    (thought : String) (config : Config) (resp : Json)
    (hkey : resolveAPIKey config.APIKey env ≠ "")
    (h0 : client 0 = Except.ok resp)
    (hsr : resp.getStr "stop_reason" = some "tool_use")
    (hc : ∀ blocks, resp.get "content" ≠ some (Json.arr blocks)) :
    AnalyzeThought env client thought config =
      (Except.error ThinkError.contentMissing, [initialRequest config thought]) := by
  unfold AnalyzeThought
  rw [if_neg hkey, h0]
  dsimp only
  rw [if_pos hsr]
  split
  · rename_i blocks heq
    exact absurd heq (hc blocks)
  · rfl

/-- Branch computation: tool use claimed but the scan yields an empty id or
name. -/
lemma AnalyzeThought_no_valid_tool_use (env : String) (client : Nat → Except String Json)
    (thought : String) (config : Config) (resp : Json) (content : List Json)
    (hkey : resolveAPIKey config.APIKey env ≠ "")
    (h0 : client 0 = Except.ok resp)
    (hsr : resp.getStr "stop_reason" = some "tool_use")
    (hc : resp.get "content" = some (Json.arr content))
    (hbad : (findToolUse content).1 = "" ∨ (findToolUse content).2 = "") :
    AnalyzeThought env client thought config =
      (Except.error ThinkError.noValidToolUse, [initialRequest config thought]) := by
  unfold AnalyzeThought
  rw [if_neg hkey, h0]
  dsimp only
  rw [if_pos hsr, hc]
  dsimp only
  rw [if_pos hbad]

/-- Branch computation: valid tool use, so both requests are sent. -/
lemma AnalyzeThought_follow_up_requests (env : String) (client : Nat → Except String Json)
    (thought : String) (config : Config) (resp : Json) (content : List Json)
    (hkey : resolveAPIKey config.APIKey env ≠ "")
    (h0 : client 0 = Except.ok resp)
    (hsr : resp.getStr "stop_reason" = some "tool_use")
    (hc : resp.get "content" = some (Json.arr content))
    (hgood : ¬((findToolUse content).1 = "" ∨ (findToolUse content).2 = "")) :
    (AnalyzeThought env client thought config).2 =
      [initialRequest config thought,
       followUpRequest config thought content (findToolUse content).1] := by
  unfold AnalyzeThought
  rw [if_neg hkey, h0]
  dsimp only
  rw [if_pos hsr, hc]
  dsimp only
  rw [if_neg hgood]
  rcases h1 : client 1 with e | finalResponseMap <;> rfl

/-- Every run with a resolvable API key sends the initial request first, and
any further request is the follow-up request for some content sequence. -/
lemma AnalyzeThought_requests_cases (env : String) (client : Nat → Except String Json)
    (thought : String) (config : Config)
    (hkey : resolveAPIKey config.APIKey env ≠ "") :
    (AnalyzeThought env client thought config).2 = [initialRequest config thought] ∨
    ∃ content, (AnalyzeThought env client thought config).2 =
      [initialRequest config thought,
       followUpRequest config thought content (findToolUse content).1] := by
  unfold AnalyzeThought
  rw [if_neg hkey]
  rcases h0 : client 0 with e | resp
  · exact Or.inl rfl
  · dsimp only
    by_cases hsr : resp.getStr "stop_reason" = some "tool_use"
    · rw [if_pos hsr]
      split
      · rename_i content heq
        by_cases hbad : (findToolUse content).1 = "" ∨ (findToolUse content).2 = ""
        · rw [if_pos hbad]
          exact Or.inl rfl
        · rw [if_neg hbad]
          rcases h1 : client 1 with e | finalResponseMap
          · exact Or.inr ⟨content, rfl⟩
          · exact Or.inr ⟨content, rfl⟩
      · exact Or.inl rfl
    · rw [if_neg hsr]
      exact Or.inl rfl

/-! Claim theorems. -/

/-- Claim C10: when both the config API key and the ANTHROPIC_API_KEY
environment value are empty, AnalyzeThought fails with the missing-key error
before sending any request: zero API calls are made. -/
theorem C10_api_key_missing (env : String) (client : Nat → Except String Json)
    (thought : String) (config : Config)
    (hk : config.APIKey = "") (he : env = "") :
    (AnalyzeThought env client thought config).1 =
      Except.error ThinkError.apiKeyMissing ∧
    (AnalyzeThought env client thought config).2 = [] := by
  have hkey : resolveAPIKey config.APIKey env = "" := by
    rw [resolveAPIKey, if_pos hk, he]
  unfold AnalyzeThought
  rw [if_pos hkey]
  exact ⟨rfl, rfl⟩

/-- Witness for claim C10 at a concrete empty-key configuration. -/
theorem C10_api_key_missing_witness :
    (AnalyzeThought "" happyClient "t" cfgNoKey).1 =
      Except.error ThinkError.apiKeyMissing ∧
    (AnalyzeThought "" happyClient "t" cfgNoKey).2 = [] :=
  C10_api_key_missing "" happyClient "t" cfgNoKey rfl rfl

/-- Claim C5: a transport error on the initial call yields a terminal error
wrapping the failure, the follow-up request is never sent, and the
initial-phase and follow-up-phase error messages carry distinct tags. -/
theorem C5_initial_transport_error (env : String) (client : Nat → Except String Json)
    (thought : String) (config : Config) (e : String)
    (hkey : resolveAPIKey config.APIKey env ≠ "")
    (h0 : client 0 = Except.error e) :
    (AnalyzeThought env client thought config).1 =
      Except.error (ThinkError.initialRequestFailed e) ∧
    (AnalyzeThought env client thought config).2 = [initialRequest config thought] ∧
    (ThinkError.initialRequestFailed e).message = "initial request failed: " ++ e ∧
    (∀ e2 : String, (ThinkError.initialRequestFailed e).message ≠
      (ThinkError.followUpRequestFailed e2).message) := by
  have hA := AnalyzeThought_initial_error env client thought config e hkey h0
  refine ⟨by rw [hA], by rw [hA], rfl, ?_⟩
  intro e2 h
  have h2 : 'i' :: ("nitial request failed: ".data ++ e.data) =
      'f' :: ("ollow-up request failed: ".data ++ e2.data) := congrArg String.data h
  exact absurd (List.cons.inj h2).1 (by decide)

/-- Witness for claim C5 at a concrete failing client. -/
theorem C5_initial_transport_error_witness :
    (AnalyzeThought "" failingClient "t" cfg0).1 =
      Except.error (ThinkError.initialRequestFailed "connection refused") ∧
    (AnalyzeThought "" failingClient "t" cfg0).2 = [initialRequest cfg0 "t"] := by
  have h := C5_initial_transport_error "" failingClient "t" cfg0 "connection refused"
    (by decide) rfl
  exact ⟨h.1, h.2.1⟩

/-- Claim C7: the composed prompt of the request actually sent equals the
template, a space and the thought when the template is non-empty, and the
default prefix followed by the thought otherwise. -/
theorem C7_prompt_composition (env : String) (client : Nat → Except String Json)
    (thought : String) (config : Config)
    (hkey : resolveAPIKey config.APIKey env ≠ "") :
    (AnalyzeThought env client thought config).2.head? =
      some (initialRequest config thought) ∧
    (initialRequest config thought).messages =
      [⟨"user", Json.str (if config.ThoughtPrompt ≠ "" then
          config.ThoughtPrompt ++ " " ++ thought
        else "Please analyze the following thought: " ++ thought)⟩] := by
  constructor
  · rcases AnalyzeThought_requests_cases env client thought config hkey with h | ⟨c, h⟩ <;>
      rw [h] <;> rfl
  · rfl

/-- Witness for claim C7 at a concrete configuration without a template. -/
theorem C7_prompt_composition_witness :
    (AnalyzeThought "" endTurnClient "my thought" cfg0).2.head? =
      some (initialRequest cfg0 "my thought") ∧
    (initialRequest cfg0 "my thought").messages =
      [⟨"user", Json.str "Please analyze the following thought: my thought"⟩] := by
  have h := C7_prompt_composition "" endTurnClient "my thought" cfg0 (by decide)
  exact ⟨h.1, h.2⟩

/-- Claim C6: the extraction loop concatenates every TextBlock text followed
by a newline in document order, skipping non-text blocks, and on the listed
three-block content it yields the two texts each with a newline. -/
theorem C6_extract_text :
    (∀ content : List Json, extractText content = specExtractText content) ∧
    extractText
      [Json.obj [("type", Json.str "text"), ("text", Json.str "A")],
       Json.obj [("type", Json.str "tool_use"),
                 ("id", Json.str "toolu_1"),
                 ("name", Json.str "think"),
                 ("input", Json.obj [("thought", Json.str "T")])],
       Json.obj [("type", Json.str "text"), ("text", Json.str "B")]] = "A\nB\n" :=
  ⟨extractText_eq_spec, rfl⟩

/-- Claim C3: a first response claiming stop_reason tool_use whose content
holds no tool_use-discriminated block, or whose content is not a sequence,
makes the orchestrator fail with a protocol error without sending a
follow-up request. -/
theorem C3_no_tool_use_block_protocol_error (env : String)
    (client : Nat → Except String Json)
    (thought : String) (config : Config) (resp : Json)
    (hkey : resolveAPIKey config.APIKey env ≠ "")
    (h0 : client 0 = Except.ok resp)
    (hsr : resp.getStr "stop_reason" = some "tool_use")
    (hno : ∀ blocks, resp.get "content" = some (Json.arr blocks) →
      ∀ b ∈ blocks, isToolUseBlock b = false) :
    (∃ e, (AnalyzeThought env client thought config).1 = Except.error e ∧
      e.isProtocolError = true) ∧
    (AnalyzeThought env client thought config).2 = [initialRequest config thought] := by
  by_cases hc : ∃ blocks, resp.get "content" = some (Json.arr blocks)
  · obtain ⟨blocks, hb⟩ := hc
    have hfind : findToolUse blocks = ("", "") :=
      findToolUse_of_no_tool_use blocks (hno blocks hb)
    have hA := AnalyzeThought_no_valid_tool_use env client thought config resp blocks
      hkey h0 hsr hb (by rw [hfind]; exact Or.inl rfl)
    exact ⟨⟨ThinkError.noValidToolUse, by rw [hA], rfl⟩, by rw [hA]⟩
  · push_neg at hc
    have hA := AnalyzeThought_content_missing env client thought config resp hkey h0 hsr hc
    exact ⟨⟨ThinkError.contentMissing, by rw [hA], rfl⟩, by rw [hA]⟩

/-- Witness for claim C3 at a concrete tool-use response without tool
blocks. -/
theorem C3_no_tool_use_block_protocol_error_witness :
    (∃ e, (AnalyzeThought "" noToolUseBlockClient "t" cfg0).1 = Except.error e ∧
      e.isProtocolError = true) ∧
    (AnalyzeThought "" noToolUseBlockClient "t" cfg0).2 = [initialRequest cfg0 "t"] := by
  refine C3_no_tool_use_block_protocol_error "" noToolUseBlockClient "t" cfg0
    noToolUseBlockResp (by decide) rfl rfl ?_
  intro blocks hb
  have hb2 : Json.arr [Json.obj [("type", Json.str "text"), ("text", Json.str "hi")]] =
      Json.arr blocks := Option.some.inj hb
  rw [← Json.arr.inj hb2]
  decide

/-- Claim C8: when the first tool_use-discriminated block of the content
lacks a usable id or name, the orchestrator fails with the no-valid-tool-use
protocol error and sends no follow-up, even if a later block is a
well-formed tool-use block. -/
theorem C8_first_tool_use_block_invalid (env : String)
    (client : Nat → Except String Json)
    (thought : String) (config : Config) (resp b : Json) (pre rest : List Json)
    (hkey : resolveAPIKey config.APIKey env ≠ "")
    (h0 : client 0 = Except.ok resp)
    (hsr : resp.getStr "stop_reason" = some "tool_use")
    (hc : resp.get "content" = some (Json.arr (pre ++ b :: rest)))
    (hpre : ∀ x ∈ pre, isToolUseBlock x = false)
    (hb : isToolUseBlock b = true)
    (hbad : (b.getStr "id").getD "" = "" ∨ (b.getStr "name").getD "" = "") :
    (AnalyzeThought env client thought config).1 =
      Except.error ThinkError.noValidToolUse ∧
    (AnalyzeThought env client thought config).2 = [initialRequest config thought] := by
  have hfind := findToolUse_append pre b rest hpre hb
  have hA := AnalyzeThought_no_valid_tool_use env client thought config resp
    (pre ++ b :: rest) hkey h0 hsr hc (by rw [hfind]; exact hbad)
  exact ⟨by rw [hA], by rw [hA]⟩

/-- Witness for claim C8: the first tool-use block has no id and no name,
the second is well-formed, and the run still fails without a follow-up. -/
theorem C8_first_tool_use_block_invalid_witness :
    (AnalyzeThought "" firstInvalidToolUseClient "t" cfg0).1 =
      Except.error ThinkError.noValidToolUse ∧
    (AnalyzeThought "" firstInvalidToolUseClient "t" cfg0).2 =
      [initialRequest cfg0 "t"] :=
  C8_first_tool_use_block_invalid "" firstInvalidToolUseClient "t" cfg0
    firstInvalidToolUseResp (Json.obj [("type", Json.str "tool_use")]) []
    [Json.obj [("type", Json.str "tool_use"),
               ("id", Json.str "tu_2"),
               ("name", Json.str "think")]]
    (by decide) rfl rfl rfl
    (fun x hx => absurd hx (List.not_mem_nil x)) rfl (Or.inl rfl)

/-- Counterexample to claim C1 as stated: the first response has stop_reason
tool_use and its content holds a block with discriminator tool_use, yet only
one request is sent, because that block lacks an id and a name. -/
theorem C1_counterexample :
    malformedToolUseResp.getStr "stop_reason" = some "tool_use" ∧
    (∃ blocks, malformedToolUseResp.get "content" = some (Json.arr blocks) ∧
      ∃ b ∈ blocks, isToolUseBlock b = true) ∧
    (AnalyzeThought "" malformedToolUseClient "t" cfg0).2.length = 1 ∧
    (AnalyzeThought "" malformedToolUseClient "t" cfg0).2.length ≠ 2 := by
  refine ⟨rfl, ⟨[Json.obj [("type", Json.str "tool_use")]], rfl, ?_⟩, rfl, by decide⟩
  exact ⟨Json.obj [("type", Json.str "tool_use")], List.mem_cons_self _ _, rfl⟩

/-- Claim C1 (amended): when the first response has stop_reason tool_use and
the first tool_use-discriminated block of its content carries a non-empty
string id and a non-empty string name, exactly two requests are sent, and
the follow-up request messages are exactly the original user message, an
assistant message holding the raw first-response content sequence, and a
user message holding a single tool_result block whose tool_use_id is that
first block id, any later tool-use blocks ignored. -/
theorem C1_two_requests_follow_up_shape (env : String)
    (client : Nat → Except String Json)
    (thought : String) (config : Config) (resp b : Json) (pre rest : List Json)
    (idStr nameStr : String)
    (hkey : resolveAPIKey config.APIKey env ≠ "")
    (h0 : client 0 = Except.ok resp)
    (hsr : resp.getStr "stop_reason" = some "tool_use")
    (hc : resp.get "content" = some (Json.arr (pre ++ b :: rest)))
    (hpre : ∀ x ∈ pre, isToolUseBlock x = false)
    (hb : isToolUseBlock b = true)
    (hid : b.getStr "id" = some idStr) (hid2 : idStr ≠ "")
    (hname : b.getStr "name" = some nameStr) (hname2 : nameStr ≠ "") :
    (AnalyzeThought env client thought config).2.length = 2 ∧
    (AnalyzeThought env client thought config).2 =
      [initialRequest config thought,
       { model := config.Model
         max_tokens := config.MaxTokens
         messages :=
           [⟨"user", Json.str (composeUserPrompt config.ThoughtPrompt thought)⟩,
            ⟨"assistant", Json.arr (pre ++ b :: rest)⟩,
            ⟨"user", Json.arr
              [Json.obj
                [("type", Json.str "tool_result"),
                 ("tool_use_id", Json.str idStr),
                 ("content", Json.str (computeToolResult thought))]]⟩]
         tools := none }] := by
  have hfind : findToolUse (pre ++ b :: rest) = (idStr, nameStr) := by
    rw [findToolUse_append pre b rest hpre hb, hid, hname]
    rfl
  have hgood : ¬((findToolUse (pre ++ b :: rest)).1 = "" ∨
      (findToolUse (pre ++ b :: rest)).2 = "") := by
    rw [hfind]
    rintro (h | h)
    · exact hid2 h
    · exact hname2 h
  have hA := AnalyzeThought_follow_up_requests env client thought config resp
    (pre ++ b :: rest) hkey h0 hsr hc hgood
  rw [hA, hfind]
  exact ⟨rfl, rfl⟩

/-- Witness for the amended claim C1 at a concrete well-formed tool-use
exchange. -/
theorem C1_two_requests_follow_up_shape_witness :
    (AnalyzeThought "" happyClient "t" cfg0).2.length = 2 ∧
    (AnalyzeThought "" happyClient "t" cfg0).2 =
      [initialRequest cfg0 "t",
       { model := cfg0.Model
         max_tokens := cfg0.MaxTokens
         messages :=
           [⟨"user", Json.str (composeUserPrompt cfg0.ThoughtPrompt "t")⟩,
            ⟨"assistant", Json.arr [toolUseBlock]⟩,
            ⟨"user", Json.arr
              [Json.obj
                [("type", Json.str "tool_result"),
                 ("tool_use_id", Json.str "tu_1"),
                 ("content", Json.str (computeToolResult "t"))]]⟩]
         tools := none }] :=
  C1_two_requests_follow_up_shape "" happyClient "t" cfg0 toolUseResp toolUseBlock
    [] [] "tu_1" "think" (by decide) rfl rfl rfl
    (fun x hx => absurd hx (List.not_mem_nil x)) rfl rfl (by decide) rfl (by decide)

/-- Counterexample to claim C2 as stated: the first response has a present
stop_reason different from tool_use, but no content sequence, so the run
returns an error rather than a result whose text is the TextBlock
concatenation. -/
theorem C2_counterexample :
    noContentResp.getStr "stop_reason" = some "end_turn" ∧
    (AnalyzeThought "" noContentClient "t" cfg0).1 =
      Except.error ThinkError.extractContentFailed ∧
    ∀ r : ThinkResponse, (AnalyzeThought "" noContentClient "t" cfg0).1 ≠
      Except.ok r := by
  refine ⟨rfl, rfl, ?_⟩
  intro r h
  have h2 : (Except.error ThinkError.extractContentFailed :
      Except ThinkError ThinkResponse) = Except.ok r := h
  exact Except.noConfusion h2

/-- Claim C2 (amended): when the first response has a present stop_reason
different from tool_use, exactly one request is sent, and, provided its
content field is a sequence, the returned result text is the concatenation
of the TextBlock texts, each followed by a newline, in document order. -/
theorem C2_single_request_text (env : String) (client : Nat → Except String Json)
    (thought : String) (config : Config) (resp : Json) (sr : String)
    (hkey : resolveAPIKey config.APIKey env ≠ "")
    (h0 : client 0 = Except.ok resp)
    (hsr : resp.getStr "stop_reason" = some sr)
    (hne : sr ≠ "tool_use") :
    (AnalyzeThought env client thought config).2 = [initialRequest config thought] ∧
    (∀ blocks, resp.get "content" = some (Json.arr blocks) →
      (AnalyzeThought env client thought config).1 =
        Except.ok ⟨resp, specExtractText blocks⟩) := by
  have hsr2 : ¬ resp.getStr "stop_reason" = some "tool_use" := by
    rw [hsr]
    exact fun h => hne (Option.some.inj h)
  have hA := AnalyzeThought_not_tool_use env client thought config resp hkey h0 hsr2
  refine ⟨by rw [hA], ?_⟩
  intro blocks hb
  rw [hA]
  show formatThinkResponse resp = _
  unfold formatThinkResponse
  rw [hb]
  dsimp only
  rw [extractText_eq_spec]

/-- Witness for the amended claim C2 at a concrete end_turn response. -/
theorem C2_single_request_text_witness :
    (AnalyzeThought "" endTurnClient "t" cfg0).2 = [initialRequest cfg0 "t"] ∧
    (AnalyzeThought "" endTurnClient "t" cfg0).1 =
      Except.ok ⟨endTurnResp, "done\n"⟩ := by
  have h := C2_single_request_text "" endTurnClient "t" cfg0 endTurnResp "end_turn"
    (by decide) rfl rfl (by decide)
  refine ⟨h.1, ?_⟩
  have h2 := h.2 [Json.obj [("type", Json.str "text"), ("text", Json.str "done")]] rfl
  rw [h2]
  rfl

/-- Counterexample to claim C4 as stated: a decoded first response with no
stop_reason but with a valid content sequence succeeds with the formatted
text instead of failing with a protocol error. -/
theorem C4_counterexample :
    noStopReasonResp.getStr "stop_reason" = none ∧
    (AnalyzeThought "" noStopReasonClient "t" cfg0).1 =
      Except.ok ⟨noStopReasonResp, "hi\n"⟩ ∧
    ∀ e, (AnalyzeThought "" noStopReasonClient "t" cfg0).1 ≠ Except.error e := by
  refine ⟨rfl, rfl, ?_⟩
  intro e h
  have h2 : (Except.ok (⟨noStopReasonResp, "hi\n"⟩ : ThinkResponse) :
      Except ThinkError ThinkResponse) = Except.error e := h
  exact Except.noConfusion h2

/-- Claim C4 (amended): a decoded first response with no string-valued
stop_reason is treated as a non-tool-use response and formatted normally; it
fails, with a protocol error, exactly when the content field is not a
sequence. -/
theorem C4_missing_stop_reason (env : String) (client : Nat → Except String Json)
    (thought : String) (config : Config) (resp : Json)
    (hkey : resolveAPIKey config.APIKey env ≠ "")
    (h0 : client 0 = Except.ok resp)
    (hsr : resp.getStr "stop_reason" = none) :
    (AnalyzeThought env client thought config).1 = formatThinkResponse resp ∧
    (∀ blocks, resp.get "content" = some (Json.arr blocks) →
      (AnalyzeThought env client thought config).1 =
        Except.ok ⟨resp, extractText blocks⟩) ∧
    ((∀ blocks, resp.get "content" ≠ some (Json.arr blocks)) →
      (AnalyzeThought env client thought config).1 =
        Except.error ThinkError.extractContentFailed ∧
      ThinkError.extractContentFailed.isProtocolError = true) := by
  have hsr2 : ¬ resp.getStr "stop_reason" = some "tool_use" := by
    rw [hsr]
    exact fun h => Option.noConfusion h
  have hA := AnalyzeThought_not_tool_use env client thought config resp hkey h0 hsr2
  refine ⟨by rw [hA], ?_, ?_⟩
  · intro blocks hb
    rw [hA]
    show formatThinkResponse resp = _
    unfold formatThinkResponse
    rw [hb]
  · intro hnc
    refine ⟨?_, rfl⟩
    rw [hA]
    exact formatThinkResponse_not_arr resp hnc

/-- Witness for the amended claim C4 at a concrete response lacking a
stop_reason. -/
theorem C4_missing_stop_reason_witness :
    (AnalyzeThought "" noStopReasonClient "t" cfg0).1 =
      formatThinkResponse noStopReasonResp ∧
    (AnalyzeThought "" noStopReasonClient "t" cfg0).1 =
      Except.ok ⟨noStopReasonResp, "hi\n"⟩ := by
  have h := C4_missing_stop_reason "" noStopReasonClient "t" cfg0 noStopReasonResp
    (by decide) rfl rfl
  refine ⟨h.1, ?_⟩
  have h2 := h.2.1 [Json.obj [("type", Json.str "text"), ("text", Json.str "hi")]] rfl
  rw [h2]
  rfl

/-- Claim C9: whenever a follow-up request is sent, its final message holds
one tool_result block whose content text is a function of the thought alone:
the fixed Japan analysis for the exact thought "Japan is cool" and the fixed
default analysis otherwise, the two texts being distinct; the extracted tool
name has no influence on that text. -/
theorem C9_tool_result_from_thought_only (env : String)
    (client : Nat → Except String Json)
    (thought : String) (config : Config) (r1 : Request)
    (h : (AnalyzeThought env client thought config).2.get? 1 = some r1) :
    (∃ toolUseID, r1.messages.getLast? = some
      ⟨"user", Json.arr
        [Json.obj
          [("type", Json.str "tool_result"),
           ("tool_use_id", Json.str toolUseID),
           ("content", Json.str (if thought = "Japan is cool" then japanAnalysis
             else defaultAnalysis))]]⟩) ∧
    japanAnalysis ≠ defaultAnalysis := by
  refine ⟨?_, by decide⟩
  by_cases hkey : resolveAPIKey config.APIKey env = ""
  · unfold AnalyzeThought at h
    rw [if_pos hkey] at h
    exact Option.noConfusion h
  · rcases AnalyzeThought_requests_cases env client thought config hkey with
      hc | ⟨content, hc⟩
    · rw [hc] at h
      exact Option.noConfusion h
    · rw [hc] at h
      have hr : followUpRequest config thought content (findToolUse content).1 = r1 :=
        Option.some.inj h
      refine ⟨(findToolUse content).1, ?_⟩
      rw [← hr]
      rfl

/-- Witness for claim C9 at a concrete well-formed tool-use exchange. -/
theorem C9_tool_result_from_thought_only_witness :
    (∃ toolUseID,
      (followUpRequest cfg0 "t" [toolUseBlock] "tu_1").messages.getLast? = some
        ⟨"user", Json.arr
          [Json.obj
            [("type", Json.str "tool_result"),
             ("tool_use_id", Json.str toolUseID),
             ("content", Json.str (if "t" = "Japan is cool" then japanAnalysis
               else defaultAnalysis))]]⟩) ∧
    japanAnalysis ≠ defaultAnalysis :=
  C9_tool_result_from_thought_only "" happyClient "t" cfg0
    (followUpRequest cfg0 "t" [toolUseBlock] "tu_1") rfl

end ThinkTool
